import Mathlib

/-!
Shallow embedding of `custom_components/airzone_local/climate.py` from the
repository `HomeAssistant-airzone_local`, together with theorems settling the
specification claims about it.

The source file contains a cloud-style API client (`AirzoneCloudLocal`), the
platform setup function (`setup_platform`) and two climate entity classes
(`AirzonecloudZone`, `AirzonecloudSystem`).  Mode values flowing through the
entity classes are Python values compared against string constants such as
`"heat-both"`; we model dynamically typed Python values that can be either
integers or strings with `PyVal`.
-/

/-- A dynamically typed Python value as it appears in the mode fields of the
source: either an integer (as the raw controller codes of the spec would be)
or a string (as the cloud-style mode names used by the code actually are). -/
inductive PyVal where
  | int (n : ℤ)
  | str (s : String)
deriving DecidableEq, Repr

/-- The Home Assistant HVAC-mode constants used by the source
(`HVAC_MODE_OFF`, `HVAC_MODE_HEAT`, `HVAC_MODE_COOL`, `HVAC_MODE_DRY`,
`HVAC_MODE_FAN_ONLY`). -/
inductive HvacMode where
  | off
  | heat
  | cool
  | dry
  | fan_only
deriving DecidableEq, Repr

/-- The state of the underlying zone object (`self._azc_zone`) that the
entity properties read: its `mode` value and its `is_on` power flag. -/
structure AzcZone where
  mode : PyVal
  is_on : Bool
deriving DecidableEq, Repr

/-- Embedding of `AirzonecloudZone.hvac_mode` (climate.py lines 244-262):
if the zone is on, the mode value is compared against the cloud-style string
mode names; every unrecognized value, and every zone that is off, yields
`HVAC_MODE_OFF`. -/
def AirzonecloudZone.hvac_mode (z : AzcZone) : HvacMode :=
  if z.is_on then
    if z.mode ∈ [PyVal.str "cool-air", PyVal.str "cool-radiant", PyVal.str "cool-both"] then
      HvacMode.cool
    else if z.mode ∈ [PyVal.str "heat-air", PyVal.str "heat-radiant", PyVal.str "heat-both"] then
      HvacMode.heat
    else if z.mode = PyVal.str "ventilate" then
      HvacMode.fan_only
    else if z.mode = PyVal.str "dehumidify" then
      HvacMode.dry
    else
      HvacMode.off
  else
    HvacMode.off

/-- The mode table of the amended claim C1, written as an association list:
the recognized cloud-style mode strings and the enum value each maps to. -/
def modeTable : List (PyVal × HvacMode) :=
  [(PyVal.str "cool-air", HvacMode.cool),
   (PyVal.str "cool-radiant", HvacMode.cool),
   (PyVal.str "cool-both", HvacMode.cool),
   (PyVal.str "heat-air", HvacMode.heat),
   (PyVal.str "heat-radiant", HvacMode.heat),
   (PyVal.str "heat-both", HvacMode.heat),
   (PyVal.str "ventilate", HvacMode.fan_only),
   (PyVal.str "dehumidify", HvacMode.dry)]

/-- The amended claim C1 as a table lookup: with the power flag off the result
is OFF; otherwise the mode value is looked up in `modeTable`, defaulting to
OFF for every value not in the table. -/
def hvacModeSpec (power : Bool) (m : PyVal) : HvacMode :=
  if power then
    (((modeTable.find? (fun p => p.1 = m)).map Prod.snd).getD HvacMode.off)
  else
    HvacMode.off

example : AirzonecloudZone.hvac_mode ⟨PyVal.str "heat-both", true⟩ = HvacMode.heat := by decide
example : AirzonecloudZone.hvac_mode ⟨PyVal.int 3, true⟩ = HvacMode.off := by decide
example : AirzonecloudZone.hvac_mode ⟨PyVal.str "heat-both", false⟩ = HvacMode.off := by decide

/-- An observable side effect issued by an entity command method: a call to
`turn_on` / `turn_off` on the underlying zone, a `set_mode` call on the
underlying system carrying its Python-value argument, or a `set_temperature`
call on the underlying zone carrying its numeric argument. -/
inductive Act where
  | turnOn
  | turnOff
  | setSystemMode (m : PyVal)
  | setZoneTemperature (v : ℚ)
deriving DecidableEq, Repr

/-- Embedding of `AirzonecloudZone.set_hvac_mode` (climate.py lines 295-311),
as the list of calls it issues in order: for `HVAC_MODE_OFF` it calls
`turn_off`; otherwise it first calls `turn_on` when the zone is not on, and
then writes the corresponding cloud-style mode string to the parent system
via `set_mode`. -/
def AirzonecloudZone.set_hvac_mode (z : AzcZone) (hm : HvacMode) : List Act :=
  if hm = HvacMode.off then
    [Act.turnOff]
  else
    (if z.is_on then [] else [Act.turnOn]) ++
    (if hm = HvacMode.heat then [Act.setSystemMode (PyVal.str "heat-both")]
     else if hm = HvacMode.cool then [Act.setSystemMode (PyVal.str "cool-both")]
     else if hm = HvacMode.dry then [Act.setSystemMode (PyVal.str "dehumidify")]
     else if hm = HvacMode.fan_only then [Act.setSystemMode (PyVal.str "ventilate")]
     else [])

/-- Embedding of `AirzonecloudSystem.set_hvac_mode` (climate.py lines
390-401).  Note the source uses `if` (not `elif`) for the OFF test, so the
OFF branch and the four-way `if/elif` chain are sequential; for OFF the chain
matches nothing, so only `set_mode("stop")` is issued. -/
def AirzonecloudSystem.set_hvac_mode (hm : HvacMode) : List Act :=
  (if hm = HvacMode.off then [Act.setSystemMode (PyVal.str "stop")] else []) ++
  (if hm = HvacMode.heat then [Act.setSystemMode (PyVal.str "heat-both")]
   else if hm = HvacMode.cool then [Act.setSystemMode (PyVal.str "cool-both")]
   else if hm = HvacMode.dry then [Act.setSystemMode (PyVal.str "dehumidify")]
   else if hm = HvacMode.fan_only then [Act.setSystemMode (PyVal.str "ventilate")]
   else [])

/-- The raw integer code the claim C4 says each enum value is mapped back to
(OFF → 1, COOL → 2, HEAT → 3, FAN_ONLY → 4, DRY → 5); written from the
words of the spec, for comparison with the source embedding. -/
def specRawCode (hm : HvacMode) : ℤ :=
  match hm with
  | HvacMode.off => 1
  | HvacMode.cool => 2
  | HvacMode.heat => 3
  | HvacMode.fan_only => 4
  | HvacMode.dry => 5

/-- The cloud-style mode command string the code actually writes for each
enum value (the amended claim C4), written as a plain table. -/
def specModeCommand (hm : HvacMode) : PyVal :=
  match hm with
  | HvacMode.off => PyVal.str "stop"
  | HvacMode.heat => PyVal.str "heat-both"
  | HvacMode.cool => PyVal.str "cool-both"
  | HvacMode.dry => PyVal.str "dehumidify"
  | HvacMode.fan_only => PyVal.str "ventilate"

/-- Rounding of a rational to the nearest integer, ties to even: the
semantics of Python's builtin `round` on the exact value of its argument.
Written with `Rat.floor` so that it evaluates by kernel reduction. -/
def roundHalfEven (q : ℚ) : ℤ :=
  if q - q.floor < 1/2 then q.floor
  else if 1/2 < q - q.floor then q.floor + 1
  else if q.floor % 2 = 0 then q.floor else q.floor + 1

/-- Python's `round(x, 1)`: round to one decimal place, ties to even. -/
def pyRound1 (q : ℚ) : ℚ := (roundHalfEven (q * 10) : ℚ) / 10

/-- Round half up to one decimal place, written from the words of the spec
("round-half-up to one decimal"), for comparison with `pyRound1`. -/
def specRoundHalfUp1 (q : ℚ) : ℚ := ((q * 10 + 1/2).floor : ℚ) / 10

theorem ratFloor_eq_intFloor (q : ℚ) : q.floor = ⌊q⌋ := by
  rw [Rat.floor_def', Rat.floor_def]

/-- Embedding of `AirzonecloudZone.set_temperature` (climate.py lines
289-293): when a temperature argument is present it is rounded to one
decimal with Python `round` and passed to the zone's `set_temperature`;
when absent, nothing is issued. -/
def AirzonecloudZone.set_temperature (t : Option ℚ) : List Act :=
  match t with
  | none => []
  | some v => [Act.setZoneTemperature (pyRound1 v)]

theorem floor_2126_over_100_mul_10 : ((2126:ℚ)/100 * 10).floor = 212 := by
  rw [ratFloor_eq_intFloor, Int.floor_eq_iff]
  norm_num

theorem floor_2125_over_100_mul_10 : ((2125:ℚ)/100 * 10).floor = 212 := by
  rw [ratFloor_eq_intFloor, Int.floor_eq_iff]
  norm_num

theorem pyRound1_2126 : pyRound1 (2126/100) = 213/10 := by
  rw [pyRound1, roundHalfEven, floor_2126_over_100_mul_10]
  norm_num

theorem pyRound1_2125 : pyRound1 (2125/100) = 212/10 := by
  rw [pyRound1, roundHalfEven, floor_2125_over_100_mul_10]
  norm_num

theorem specRoundHalfUp1_2125 : specRoundHalfUp1 (2125/100) = 213/10 := by
  have h : ((2125:ℚ)/100 * 10 + 1/2).floor = 213 := by
    rw [ratFloor_eq_intFloor, Int.floor_eq_iff]
    norm_num
  rw [specRoundHalfUp1, h]
  norm_num

/-- The data dictionary for one device as returned by the API
(`device_relation.get("device")`); the `id` field is what `_load_all` matches
existing devices against, `payload` stands for the remaining fields. -/
structure DeviceData where
  id : ℕ
  payload : ℕ
deriving DecidableEq, Repr

/-- A `Device` object held in the client's `_devices` list: its id and the
last data dictionary it was given. -/
structure Device where
  id : ℕ
  data : DeviceData
deriving DecidableEq, Repr

/-- The body of the loop in `_load_all`: search `current_devices` for a
device with the same id and refresh its data (`_set_data_refreshed`), else
construct a new `Device` from the data. -/
def mkOrReuseDevice (current_devices : List Device) (dd : DeviceData) : Device :=
  match current_devices.find? (fun d => d.id = dd.id) with
  | some d => { d with data := dd }
  | none => { id := dd.id, data := dd }

/-- Embedding of `AirzoneCloudLocal._load_all` (climate.py lines 81-101) as a
state transformer: given the prior `_devices` list and the outcome of the
HTTP fetch (`_get_device_relations`), it returns the final `_devices` list
and the outcome.  The source first saves `current_devices = self._devices`,
clears `self._devices = []`, and only then fetches; on a `RuntimeError` from
the fetch it re-raises `Exception("Unable to load devices from
AirzoneCloud")`, leaving `_devices` cleared. -/
def load_all (devices : List Device) (fetch : Except Unit (List DeviceData)) :
    List Device × Except String (List Device) :=
  let current_devices := devices
  match fetch with
  | Except.error _ => ([], Except.error "Unable to load devices from AirzoneCloud")
  | Except.ok rels =>
      let new := rels.map (mkOrReuseDevice current_devices)
      (new, Except.ok new)

/-- A system object as walked by `setup_platform`: the list of its zones
(identified here by their index numbers). -/
structure SystemRef where
  zones : List ℕ
deriving DecidableEq, Repr

/-- A device object as walked by `setup_platform`: the list of its systems. -/
structure DeviceRef where
  systems : List SystemRef
deriving DecidableEq, Repr

/-- An entity handed to `add_entities`: an `AirzonecloudZone` for a zone or
an `AirzonecloudSystem` for a system. -/
inductive Entity where
  | zoneEntity (z : ℕ)
  | systemEntity (s : SystemRef)
deriving DecidableEq, Repr

/-- Embedding of `setup_platform` (climate.py lines 191-216): if the
`AirzoneCloudLocal` constructor raises, the error is logged, a persistent
notification is created, and the function returns before ever calling
`add_entities` (result `none`); otherwise `add_entities` is called once with
the zone entities of every system of every device followed by the system
entity (result `some` of that list). -/
def setup_platform (ctor : Except String (List DeviceRef)) : Option (List Entity) :=
  match ctor with
  | Except.error _ => none
  | Except.ok devices =>
      some (devices.flatMap (fun dev =>
        dev.systems.flatMap (fun sys =>
          sys.zones.map Entity.zoneEntity ++ [Entity.systemEntity sys])))

/-- The per-zone state snapshot of the spec (§3): the fields the accessors
read. -/
structure ZoneSnapshot where
  systemId : ℕ
  zoneId : ℕ
  roomTemperature : ℚ
  humidity : Option ℚ
  setpoint : ℚ
  minTemp : ℚ
  maxTemp : ℚ
  rawMode : ℕ
  isOn : Bool
deriving DecidableEq, Repr

/-- The error taxonomy of the spec (§7). -/
inductive ClientError where
  | transportError
  | protocolError
  | invalidZoneId
deriving DecidableEq, Repr

/-- Modelled from the spec: the common bounds check of the snapshot
accessors of §4.1 — fetch the zone at `zoneId` from the current snapshot,
failing with `InvalidZoneId` when `zoneId` is out of the snapshot's
bounds. -/
def zoneAt (snapshot : List ZoneSnapshot) (zoneId : ℕ) : Except ClientError ZoneSnapshot :=
  match snapshot[zoneId]? with
  | some z => Except.ok z
  | none => Except.error ClientError.invalidZoneId

/-- Modelled from the spec: the accessor `temperature(zoneId)` of §4.1. -/
def temperature (snapshot : List ZoneSnapshot) (zoneId : ℕ) : Except ClientError ℚ :=
  (zoneAt snapshot zoneId).map ZoneSnapshot.roomTemperature

/-- Modelled from the spec: the accessor `humidity(zoneId)` of §4.1. -/
def humidity (snapshot : List ZoneSnapshot) (zoneId : ℕ) : Except ClientError (Option ℚ) :=
  (zoneAt snapshot zoneId).map ZoneSnapshot.humidity

/-- Modelled from the spec: the accessor `setpoint(zoneId)` of §4.1. -/
def setpoint (snapshot : List ZoneSnapshot) (zoneId : ℕ) : Except ClientError ℚ :=
  (zoneAt snapshot zoneId).map ZoneSnapshot.setpoint

/-- Modelled from the spec: the accessor `minTemp(zoneId)` of §4.1. -/
def minTemp (snapshot : List ZoneSnapshot) (zoneId : ℕ) : Except ClientError ℚ :=
  (zoneAt snapshot zoneId).map ZoneSnapshot.minTemp

/-- Modelled from the spec: the accessor `maxTemp(zoneId)` of §4.1. -/
def maxTemp (snapshot : List ZoneSnapshot) (zoneId : ℕ) : Except ClientError ℚ :=
  (zoneAt snapshot zoneId).map ZoneSnapshot.maxTemp

/-- Modelled from the spec: the accessor `isOn(zoneId)` of §4.1. -/
def isOn (snapshot : List ZoneSnapshot) (zoneId : ℕ) : Except ClientError Bool :=
  (zoneAt snapshot zoneId).map ZoneSnapshot.isOn

/-- The temperature units involved in the entity bound properties. -/
inductive TempUnit where
  | celsius
  | fahrenheit
deriving DecidableEq, Repr

/-- Modelled from the spec: `homeassistant.util.temperature.convert`, the
external helper used by `min_temp`/`max_temp`; conversion between equal
units is the identity (the spec: "unit conversion is a no-op in the default
configuration ... without altering the stored value"). -/
def convert_temperature (v : ℚ) (fromUnit toUnit : TempUnit) : ℚ :=
  if fromUnit = toUnit then v
  else
    match fromUnit, toUnit with
    | TempUnit.celsius, TempUnit.fahrenheit => v * 9 / 5 + 32
    | TempUnit.fahrenheit, TempUnit.celsius => (v - 32) * 5 / 9
    | _, _ => v

/-- The system object read by the bound properties: its stored Celsius
bounds. -/
structure AzcSystem where
  min_temp : ℚ
  max_temp : ℚ
deriving DecidableEq, Repr

/-- Embedding of `AirzonecloudZone.temperature_unit` (climate.py lines
239-242): the constant `TEMP_CELSIUS`. -/
def AirzonecloudZone.temperature_unit : TempUnit := TempUnit.celsius

/-- Embedding of `AirzonecloudZone.min_temp` (climate.py lines 326-331):
the system's stored bound converted from Celsius to the display unit. -/
def AirzonecloudZone.min_temp (sys : AzcSystem) : ℚ :=
  convert_temperature sys.min_temp TempUnit.celsius AirzonecloudZone.temperature_unit

/-- Embedding of `AirzonecloudZone.max_temp` (climate.py lines 333-338). -/
def AirzonecloudZone.max_temp (sys : AzcSystem) : ℚ :=
  convert_temperature sys.max_temp TempUnit.celsius AirzonecloudZone.temperature_unit

/-- The outcome of one `_request` call. -/
inductive ReqError where
  | http (status : ℕ)
  | loginFailed
deriving DecidableEq, Repr

/-- Embedding of `AirzoneCloudLocal._request` (climate.py lines 147-185).
`statuses k` is the HTTP status the transport returns for attempt number
`k`; `login` is the outcome of `self._login()`.  The result is the number of
HTTP attempts made together with the final outcome.  On a 401 status with
`autoreconnect` true the source re-logs-in and retries once with
`autoreconnect=False`; on any other status at least 400, `raise_for_status`
raises; otherwise the parsed body is returned (modelled as `Unit`). -/
def request (statuses : ℕ → ℕ) (login : Except Unit Unit) (k : ℕ) :
    Bool → ℕ × Except ReqError Unit
  | false =>
      let s := statuses k
      (1, if 400 ≤ s then Except.error (ReqError.http s) else Except.ok ())
  | true =>
      let s := statuses k
      if s = 401 then
        match login with
        | Except.error _ => (1, Except.error ReqError.loginFailed)
        | Except.ok _ =>
            let r := request statuses login (k + 1) false
            (r.1 + 1, r.2)
      else
        (1, if 400 ≤ s then Except.error (ReqError.http s) else Except.ok ())
termination_by b => if b then 1 else 0
decreasing_by decide

/-- The amended claim C4 for the zone entity, written as a plain table:
OFF turns the zone off; any other enum value turns the zone on when it is
off and then writes the cloud-style mode command string to the parent
system. -/
def specZoneSetHvacMode (power : Bool) (hm : HvacMode) : List Act :=
  match hm with
  | HvacMode.off => [Act.turnOff]
  | _ => (if power then [] else [Act.turnOn]) ++ [Act.setSystemMode (specModeCommand hm)]

/-- Half of a unit is the farthest `roundHalfEven` moves its argument. -/
theorem abs_roundHalfEven_sub_le (x : ℚ) : |(roundHalfEven x : ℚ) - x| ≤ 1/2 := by
  rw [roundHalfEven, ratFloor_eq_intFloor]
  have h1 : ((⌊x⌋ : ℚ)) ≤ x := Int.floor_le x
  have h2 : x < (⌊x⌋ : ℚ) + 1 := Int.lt_floor_add_one x
  split_ifs with ha hb hc
  · rw [abs_le]
    constructor <;> linarith
  · rw [abs_le]
    push_cast
    constructor <;> linarith
  · rw [abs_le]
    constructor <;> linarith
  · rw [abs_le]
    push_cast
    constructor <;> linarith

/-- `pyRound1` returns a one-decimal value within half a step of its
argument. -/
theorem pyRound1_close (t : ℚ) : (10 * pyRound1 t).den = 1 ∧ |pyRound1 t - t| ≤ 1/20 := by
  constructor
  · have h10 : (10:ℚ) * pyRound1 t = ((roundHalfEven (t * 10) : ℤ) : ℚ) := by
      rw [pyRound1]
      field_simp
    rw [h10, Rat.den_intCast]
  · have hd : pyRound1 t - t = (((roundHalfEven (t * 10) : ℤ) : ℚ) - t * 10) / 10 := by
      rw [pyRound1]
      ring
    rw [hd, abs_div]
    have h5 := abs_roundHalfEven_sub_le (t * 10)
    have h10 : |(10:ℚ)| = 10 := by norm_num
    rw [h10, div_le_iff₀ (by norm_num : (0:ℚ) < 10)]
    linarith

/-- C1: the claim says the adapter maps raw integer mode codes
(2 → COOL, 3 → HEAT, 4 → FAN_ONLY, 5 → DRY) and that a powered-on zone with
mode `3` reports HEAT.  In the code the mode values compared against are the
cloud-style strings, so the integer value `3` is unrecognized and a
powered-on zone with mode `3` reports OFF, not HEAT. -/
theorem C1_counterexample :
    AirzonecloudZone.hvac_mode ⟨PyVal.int 3, true⟩ = HvacMode.off ∧
      HvacMode.off ≠ HvacMode.heat := by
  decide

/-- C1 (amended): for every zone, `hvac_mode` equals the table lookup
`hvacModeSpec`: with the power flag off the result is OFF; with it on, the
mode value is looked up among the cloud-style mode strings
("cool-air"/"cool-radiant"/"cool-both" → COOL, "heat-air"/"heat-radiant"/
"heat-both" → HEAT, "ventilate" → FAN_ONLY, "dehumidify" → DRY), and every
unrecognized value — integer codes such as `3` included — yields OFF. -/
theorem C1_mode_table (z : AzcZone) :
    AirzonecloudZone.hvac_mode z = hvacModeSpec z.is_on z.mode := by
  rcases z with ⟨m, b⟩
  cases b
  · simp [AirzonecloudZone.hvac_mode, hvacModeSpec]
  · rcases m with n | s
    · simp [AirzonecloudZone.hvac_mode, hvacModeSpec, modeTable]
    · by_cases h1 : "cool-air" = s
      · subst h1; decide
      by_cases h2 : "cool-radiant" = s
      · subst h2; decide
      by_cases h3 : "cool-both" = s
      · subst h3; decide
      by_cases h4 : "heat-air" = s
      · subst h4; decide
      by_cases h5 : "heat-radiant" = s
      · subst h5; decide
      by_cases h6 : "heat-both" = s
      · subst h6; decide
      by_cases h7 : "ventilate" = s
      · subst h7; decide
      by_cases h8 : "dehumidify" = s
      · subst h8; decide
      simp [AirzonecloudZone.hvac_mode, hvacModeSpec, modeTable, List.find?_cons_of_neg,
        h1, h2, h3, h4, h5, h6, h7, h8, Ne.symm h1, Ne.symm h2, Ne.symm h3, Ne.symm h4,
        Ne.symm h5, Ne.symm h6, Ne.symm h7, Ne.symm h8]

/-- C2: for every mode value, a zone whose `is_on` flag is false reports
`HVAC_MODE_OFF` from `hvac_mode`, regardless of the mode value. -/
theorem C2_power_off_reports_off (m : PyVal) :
    AirzonecloudZone.hvac_mode ⟨m, false⟩ = HvacMode.off := by
  simp [AirzonecloudZone.hvac_mode]

/-- C3: the claim says a transport failure during refresh leaves the cached
snapshot unchanged and propagates no exception.  In the code `_load_all`
clears `self._devices` to `[]` before fetching, so after a failed fetch the
prior device list (here one device) is gone, and the raised
`Exception("Unable to load devices from AirzoneCloud")` propagates
(`refresh_devices` has no handler). -/
theorem C3_counterexample :
    load_all [⟨1, ⟨1, 0⟩⟩] (Except.error ()) =
        ([], Except.error "Unable to load devices from AirzoneCloud") ∧
      ([] : List Device) ≠ [⟨1, ⟨1, 0⟩⟩] :=
  ⟨rfl, by decide⟩

/-- C3 (amended): if the fetch inside a refresh fails with a transport
error, the cached device list is cleared to empty — the previous snapshot
is NOT retained — and the exception `Unable to load devices from
AirzoneCloud` propagates to the caller. -/
theorem C3_refresh_failure_clears_and_raises (devices : List Device) :
    load_all devices (Except.error ()) =
      ([], Except.error "Unable to load devices from AirzoneCloud") := by
  rfl

/-- C4: the claim says `set_hvac_mode` maps the enum back to raw integer
codes (HEAT → 3) and calls `set_mode` with that code.  In the code,
`set_mode` is called with the cloud-style string `"heat-both"`, which is not
the integer code `3` that `specRawCode` prescribes. -/
theorem C4_counterexample :
    AirzonecloudSystem.set_hvac_mode HvacMode.heat =
        [Act.setSystemMode (PyVal.str "heat-both")] ∧
      PyVal.str "heat-both" ≠ PyVal.int (specRawCode HvacMode.heat) := by
  decide

/-- C4 (amended): `set_hvac_mode` maps each enum value to a cloud-style mode
command string and calls `set_mode` with it — on the system entity: OFF →
"stop", HEAT → "heat-both", COOL → "cool-both", DRY → "dehumidify",
FAN_ONLY → "ventilate"; on the zone entity OFF instead calls `turn_off`,
and the other values issue the same string after turning the zone on when
needed. -/
theorem C4_command_table :
    (∀ hm, AirzonecloudSystem.set_hvac_mode hm = [Act.setSystemMode (specModeCommand hm)]) ∧
      ∀ z hm, AirzonecloudZone.set_hvac_mode z hm = specZoneSetHvacMode z.is_on hm := by
  constructor
  · intro hm
    cases hm <;> rfl
  · intro z hm
    rcases z with ⟨m, b⟩
    cases b <;> cases hm <;> rfl

/-- C5: the claim calls the rounding "round-half-up to one decimal".  The
code uses Python `round`, which rounds ties to even: at the tie input 21.25
the issued setpoint is 21.2, while round-half-up prescribes 21.3. -/
theorem C5_counterexample :
    AirzonecloudZone.set_temperature (some (2125/100)) =
        [Act.setZoneTemperature (212/10)] ∧
      specRoundHalfUp1 (2125/100) = 213/10 ∧ (212/10 : ℚ) ≠ 213/10 := by
  refine ⟨?_, specRoundHalfUp1_2125, by norm_num⟩
  rw [AirzonecloudZone.set_temperature, pyRound1_2125]

/-- C5 (amended): `set_temperature` rounds its argument to one decimal place
before delegating — the issued value is a one-decimal value within half a
step (1/20) of the argument — using round-half-to-even, so
`set_temperature(21.26)` issues setpoint 21.3; a missing argument issues
nothing. -/
theorem C5_rounds_to_one_decimal :
    AirzonecloudZone.set_temperature (some (2126/100)) =
        [Act.setZoneTemperature (213/10)] ∧
      (∀ t : ℚ, ∃ v : ℚ, AirzonecloudZone.set_temperature (some t) =
          [Act.setZoneTemperature v] ∧ (10 * v).den = 1 ∧ |v - t| ≤ 1/20) ∧
      AirzonecloudZone.set_temperature none = [] := by
  refine ⟨?_, ?_, rfl⟩
  · rw [AirzonecloudZone.set_temperature, pyRound1_2126]
  · intro t
    exact ⟨pyRound1 t, rfl, (pyRound1_close t).1, (pyRound1_close t).2⟩

/-- C6: if the `AirzoneCloudLocal` constructor (the initial load) raises,
`setup_platform` logs, notifies and returns before calling `add_entities`,
so no entities at all are registered with the host. -/
theorem C6_setup_aborts_on_ctor_failure (msg : String) :
    setup_platform (Except.error msg) = none := by
  rfl

/-- C7: for every snapshot accessor (temperature, humidity, setpoint,
minTemp, maxTemp, isOn) and every zone index outside the current snapshot's
bounds, the access fails with `InvalidZoneId`; it never crashes or wraps
around to another zone's data. -/
theorem C7_out_of_bounds (snapshot : List ZoneSnapshot) (zoneId : ℕ)
    (h : snapshot.length ≤ zoneId) :
    temperature snapshot zoneId = Except.error ClientError.invalidZoneId ∧
      humidity snapshot zoneId = Except.error ClientError.invalidZoneId ∧
      setpoint snapshot zoneId = Except.error ClientError.invalidZoneId ∧
      minTemp snapshot zoneId = Except.error ClientError.invalidZoneId ∧
      maxTemp snapshot zoneId = Except.error ClientError.invalidZoneId ∧
      isOn snapshot zoneId = Except.error ClientError.invalidZoneId := by
  have hz : snapshot[zoneId]? = none := List.getElem?_eq_none h
  refine ⟨?_, ?_, ?_, ?_, ?_, ?_⟩ <;>
    simp [temperature, humidity, setpoint, minTemp, maxTemp, isOn, zoneAt, hz, Except.map]

/-- Witness for C7: the empty snapshot and index 0. -/
theorem C7_out_of_bounds_witness :
    List.length ([] : List ZoneSnapshot) ≤ 0 ∧
      (temperature [] 0 = Except.error ClientError.invalidZoneId ∧
        humidity [] 0 = Except.error ClientError.invalidZoneId ∧
        setpoint [] 0 = Except.error ClientError.invalidZoneId ∧
        minTemp [] 0 = Except.error ClientError.invalidZoneId ∧
        maxTemp [] 0 = Except.error ClientError.invalidZoneId ∧
        isOn [] 0 = Except.error ClientError.invalidZoneId) :=
  ⟨by simp, C7_out_of_bounds [] 0 (by simp)⟩

/-- C8: with the display unit equal to the source unit (the code hardwires
`temperature_unit` to Celsius), `min_temp` and `max_temp` return exactly the
system's stored bounds — conversion between equal units is the identity. -/
theorem C8_bounds_identity :
    (∀ sys : AzcSystem, AirzonecloudZone.min_temp sys = sys.min_temp ∧
        AirzonecloudZone.max_temp sys = sys.max_temp) ∧
      ∀ (v : ℚ) (u : TempUnit), convert_temperature v u u = v := by
  constructor
  · intro sys
    constructor <;>
      simp [AirzonecloudZone.min_temp, AirzonecloudZone.max_temp,
        AirzonecloudZone.temperature_unit, convert_temperature]
  · intro v u
    simp [convert_temperature]

/-- C9: `_request` performs at most one re-login-and-retry on a 401
response (the retry runs with `autoreconnect` disabled), so every call makes
at most two HTTP attempts; against a persistently-401 endpoint it makes
exactly two attempts and then fails with the 401 error. -/
theorem C9_at_most_two_attempts :
    (∀ (statuses : ℕ → ℕ) (login : Except Unit Unit) (k : ℕ) (b : Bool),
        (request statuses login k b).1 ≤ 2) ∧
      request (fun _ => 401) (Except.ok ()) 0 true = (2, Except.error (ReqError.http 401)) := by
  constructor
  · intro statuses login k b
    cases b
    · rw [request.eq_def]
      simp
    · rw [request.eq_def]
      by_cases h : statuses k = 401
      · cases login <;> simp [h, request.eq_def]
      · simp [h]
  · rw [request.eq_def]
    simp [request.eq_def]

/-- C10: calling `set_hvac_mode` on a powered-off zone with any mode other
than OFF first turns the zone on and only then writes the mode to the
parent system; calling it with OFF turns the zone off and writes no system
mode. -/
theorem C10_turn_on_before_mode_write (m : PyVal) (hm : HvacMode)
    (h : hm ≠ HvacMode.off) :
    AirzonecloudZone.set_hvac_mode ⟨m, false⟩ hm =
        [Act.turnOn, Act.setSystemMode (specModeCommand hm)] ∧
      ∀ b, AirzonecloudZone.set_hvac_mode ⟨m, b⟩ HvacMode.off = [Act.turnOff] := by
  constructor
  · cases hm
    · exact absurd rfl h
    · rfl
    · rfl
    · rfl
    · rfl
  · intro b
    rfl

/-- Witness for C10: a powered-off zone commanded to HEAT. -/
theorem C10_turn_on_before_mode_write_witness :
    HvacMode.heat ≠ HvacMode.off ∧
      (AirzonecloudZone.set_hvac_mode ⟨PyVal.int 0, false⟩ HvacMode.heat =
          [Act.turnOn, Act.setSystemMode (specModeCommand HvacMode.heat)] ∧
        ∀ b, AirzonecloudZone.set_hvac_mode ⟨PyVal.int 0, b⟩ HvacMode.off = [Act.turnOff]) :=
  ⟨by decide, C10_turn_on_before_mode_write (PyVal.int 0) HvacMode.heat (by decide)⟩
